import Mathlib

/-!
Verification development for the session-orchestration layer of
steel-browser: a shallow embedding of `SessionService`
(src/api/src/services/session.service.ts), the sessions controller and
the websocket relay plugin, together with theorems about the captcha
task registry, the session lifecycle and the realtime relay discipline.
-/

namespace SteelBrowser

/-! ## Captcha task registry (session.service.ts, lines 48-60 and 279-363) -/

/-- Status field of `CaptchaTaskState`. -/
inductive TaskStatus
  | pending
  | success
  | failed
  | timeout
deriving DecidableEq, Repr

/-- The `finalStatus` parameter of `updateCaptchaTask`:
`"success" | "failed" | "timeout"`. -/
inductive FinalStatus
  | success
  | failed
  | timeout
deriving DecidableEq, Repr

/-- The task status a non-`success` `finalStatus` is recorded as
(`task.status = finalStatus`, line 324). -/
def FinalStatus.toTaskStatus : FinalStatus → TaskStatus
  | .success => .success
  | .failed => .failed
  | .timeout => .timeout

/-- The string interpolated into the default rejection message
`Task ${finalStatus}` (line 339). -/
def FinalStatus.show : FinalStatus → String
  | .success => "success"
  | .failed => "failed"
  | .timeout => "timeout"

/-- The solver payload carried in `data.result` (shape of the
`CaptchaResult` interface in sessions.controller.ts): a `success` flag and
timing fields.  Fields the payload may lack are `Option` (JavaScript
`undefined` when reading an absent property of a present object). -/
structure SolverResult where
  success : Bool
  started_at : Option Int
  ended_at : Option Int
  time_taken : Option Int
deriving DecidableEq, Repr

/-- The `data : { result?: any; error?: string }` parameter of
`updateCaptchaTask`.  `result := none` is JavaScript `undefined`. -/
structure CaptchaData where
  result : Option SolverResult
  error : Option String
deriving DecidableEq, Repr

/-- The `CaptchaTaskState` record without its promise triple; settlement
is modelled as emitted `SettleEvent`s instead. -/
structure CaptchaTaskState where
  taskId : String
  pageId : String
  status : TaskStatus
  startTime : Option Int
  endTime : Option Int
  timeTaken : Option Int
  result : Option SolverResult
  error : Option String
deriving DecidableEq, Repr

/-- A settlement of a task's rendezvous: `resolve(task.result)` or
`reject(\x7bstatus, message\x7d)`. -/
inductive SettleEvent
  | resolved (taskId : String) (value : Option SolverResult)
  | rejected (taskId : String) (status : FinalStatus) (message : String)
deriving DecidableEq, Repr

/-- The `captchaTasks : Map<string, CaptchaTaskState>` field, as an
insertion-ordered association list (JavaScript `Map` iterates in
insertion order and `set` on an existing key keeps its position). -/
abbrev Registry := List (String × CaptchaTaskState)

/-- Lookup, as `Map.get`. -/
def mapGet (m : Registry) (k : String) : Option CaptchaTaskState :=
  (List.find? (fun p => p.1 = k) m).map Prod.snd

/-- Insertion, as `Map.set`: overwrite in place when the key is present, else append. -/
def mapSet (m : Registry) (k : String) (v : CaptchaTaskState) : Registry :=
  if List.any m (fun p => p.1 = k) then
    List.map (fun p => if p.1 = k then (k, v) else p) m
  else
    m ++ [(k, v)]

/-- A thrown JavaScript `TypeError` (reading a property of `undefined`). -/
inductive JsError
  | typeError (msg : String)
deriving DecidableEq, Repr

/-- JavaScript `a || b` on an optional string: `undefined` and `""` are
falsy. -/
def jsOrStr (a : Option String) (b : String) : String :=
  match a with
  | some s => if s = "" then b else s
  | none => b

/-- Outcome of one `updateCaptchaTask` call: the registry afterwards (a
thrown exception does not roll back mutations already applied), the
rendezvous settlements performed, the warnings logged, and the exception
that escaped, if any. -/
structure UpdateOutcome where
  tasks : Registry
  settles : List SettleEvent
  warnings : List String
  thrown : Option JsError
deriving DecidableEq, Repr

/-- The `updateCaptchaTask(taskId, data, finalStatus)` method (lines 305-341),
statement by statement:
unknown task: warn and return; non-`pending` task: warn and return;
`finalStatus === "success"`: `task.status = data.result.success ?
"success" : "failed"` — reading `data.result.success` throws a
`TypeError` when `data.result` is `undefined`, before any mutation;
otherwise `task.status = finalStatus` (applied before the timing reads);
then `task.startTime = data.result.started_at` etc., which throws when
`data.result` is `undefined`, leaving the status mutation in place and
settling nothing; finally `resolve(task.result)` when `finalStatus` is
`"success"`, else `reject(\x7bstatus: finalStatus, message: task.error ||
`Task $\x7bfinalStatus\x7d`\x7d)`. -/
def updateCaptchaTask (m : Registry) (taskId : String) (data : CaptchaData)
    (finalStatus : FinalStatus) : UpdateOutcome :=
  match mapGet m taskId with
  | none =>
      { tasks := m, settles := [], thrown := none,
        warnings := ["Attempted to update non-existent captcha task: " ++ taskId] }
  | some task =>
      if task.status ≠ TaskStatus.pending then
        { tasks := m, settles := [], thrown := none,
          warnings := ["Attempted to update already completed captcha task: " ++ taskId] }
      else
        match finalStatus, data.result with
        | .success, none =>
            { tasks := m, settles := [], warnings := [],
              thrown := some (.typeError
                "Cannot read properties of undefined (reading 'success')") }
        | .success, some r =>
            let task1 := { task with
              status := if r.success then TaskStatus.success else TaskStatus.failed,
              startTime := r.started_at, endTime := r.ended_at,
              timeTaken := r.time_taken, result := some r, error := data.error }
            { tasks := mapSet m taskId task1,
              settles := [.resolved taskId task1.result],
              warnings := [], thrown := none }
        | fs, none =>
            let task1 := { task with status := fs.toTaskStatus }
            { tasks := mapSet m taskId task1, settles := [], warnings := [],
              thrown := some (.typeError
                "Cannot read properties of undefined (reading 'started_at')") }
        | fs, some r =>
            let task1 := { task with
              status := fs.toTaskStatus,
              startTime := r.started_at, endTime := r.ended_at,
              timeTaken := r.time_taken, result := some r, error := data.error }
            { tasks := mapSet m taskId task1,
              settles := [.rejected taskId fs
                (jsOrStr task1.error ("Task " ++ fs.show))],
              warnings := [], thrown := none }

/-- The `addCaptchaTask(taskId, pageId)` method (lines 282-300): registers a pending
task with a fresh rendezvous. -/
def addCaptchaTask (m : Registry) (taskId pageId : String) : Registry :=
  mapSet m taskId
    { taskId := taskId, pageId := pageId, status := .pending,
      startTime := none, endTime := none, timeTaken := none,
      result := none, error := none }

/-- The rejection message used by `clearCaptchaTasks`. -/
def sessionEndedMsg : String := "Session ended before captcha task completed."

/-- The `forEach` body of `clearCaptchaTasks`: reject each still-pending
task, in insertion order. -/
def clearLoop : Registry → List SettleEvent
  | [] => []
  | (_, t) :: rest =>
      (if t.status = TaskStatus.pending then
        [SettleEvent.rejected t.taskId .failed sessionEndedMsg]
      else []) ++ clearLoop rest

/-- The `clearCaptchaTasks()` method (lines 354-363): reject every pending task with
the standard session-ended failure, then `Map.clear()`. -/
def clearCaptchaTasks (m : Registry) : Registry × List SettleEvent :=
  ([], clearLoop m)

/-! ## Session lifecycle (session.service.ts, lines 19-277) -/

/-- Status field of `SessionDetails` (sessions.schema.ts: `"idle" |
"live" | "released" | "failed"`). -/
inductive SessionStatus
  | idle
  | live
  | released
  | failed
deriving DecidableEq, Repr

/-- Viewport dimensions. -/
structure Dimensions where
  width : Nat
  height : Nat
deriving DecidableEq, Repr

/-- Modelled from the spec: the base host used by `getBaseUrl`/`getUrl`
(utils/url.ts is not part of the sources given; the spec only says the
endpoint URLs are "derived from base configuration"). -/
def baseHost : String := "localhost:3000"

/-- Modelled from the spec: `getBaseUrl(scheme?)` of utils/url.ts, a
canonical URL derived from the base configuration. -/
def getBaseUrl (scheme : String) : String :=
  scheme ++ "://" ++ baseHost

/-- Modelled from the spec: `getUrl(path, scheme?)` of utils/url.ts, a
canonical URL derived from the base configuration and a path. -/
def getUrl (pathPart : String) (scheme : String) : String :=
  scheme ++ "://" ++ baseHost ++ "/" ++ pathPart

/-- The `SessionDetails` record (sessions.schema.ts).  `createdAt` is a
timestamp in milliseconds (the code stores its ISO rendering and parses
it back with `Date`).  Fields that the schema marks optional and that a
spread can set to `undefined` (`dimensions`, `userAgent`, `proxy`,
`isSelenium`) are `Option`; `none` is JavaScript `undefined`. -/
structure SessionDetails where
  id : String
  createdAt : Nat
  status : SessionStatus
  duration : Int
  eventCount : Nat
  timeout : Nat
  creditsUsed : Nat
  websocketUrl : String
  debugUrl : String
  debuggerUrl : String
  sessionViewerUrl : String
  dimensions : Option Dimensions
  userAgent : Option String
  proxy : Option String
  proxyTxBytes : Nat
  proxyRxBytes : Nat
  solveCaptcha : Bool
  manualSolveCaptcha : Bool
  isSelenium : Option Bool
deriving DecidableEq, Repr

/-- The proxy tunnel handle (`ProxyServer`); only its identity matters
for the lifecycle claims. -/
structure ProxyServer where
  url : String
deriving DecidableEq, Repr

/-- The `Session` type: `SessionDetails` plus the completion primitive
(modelled by whether it has been signalled) and the owned tunnel. -/
structure Session extends SessionDetails where
  completed : Bool
  proxyServer : Option ProxyServer
deriving DecidableEq, Repr

/-- The `defaultSession` constant (lines 34-46). -/
structure DefaultSessionRec where
  status : SessionStatus
  websocketUrl : String
  debugUrl : String
  debuggerUrl : String
  sessionViewerUrl : String
  dimensions : Option Dimensions
  userAgent : String
  isSelenium : Option Bool
  proxy : Option String
  solveCaptcha : Bool
  manualSolveCaptcha : Bool
deriving DecidableEq, Repr

/-- The `defaultSession` constant value (lines 34-46). -/
def defaultSession : DefaultSessionRec :=
  { status := .idle
    websocketUrl := getBaseUrl "ws"
    debugUrl := getUrl "v1/sessions/debug" "http"
    debuggerUrl := getUrl "v1/devtools/inspector.html" "http"
    sessionViewerUrl := getBaseUrl "http"
    dimensions := some { width := 1920, height := 1080 }
    userAgent := ""
    isSelenium := some false
    proxy := some ""
    solveCaptcha := false
    manualSolveCaptcha := false }

/-- The `overrides : Partial<SessionDetails>` argument of
`resetSessionInfo`, restricted to the keys its call sites pass plus the
zeroed-counter keys (to express that `...sessionStats`, spread after
`...overrides`, wins on those).  The outer `Option` is key presence in
the object literal; for keys whose value type is itself optional the
inner `Option` distinguishes an explicitly-`undefined` value, which a
spread does copy, from a real value. -/
structure ResetOverrides where
  id : Option String
  status : Option SessionStatus
  proxy : Option (Option String)
  solveCaptcha : Option Bool
  dimensions : Option (Option Dimensions)
  isSelenium : Option (Option Bool)
  duration : Option Int
  eventCount : Option Nat
  timeout : Option Nat
  creditsUsed : Option Nat
  proxyTxBytes : Option Nat
  proxyRxBytes : Option Nat
deriving DecidableEq, Repr

/-- Environment of external collaborators: `cdpService.getUserAgent()`
(`string | undefined` in the driver contract). -/
structure Env where
  cdpUserAgent : Option String
deriving DecidableEq, Repr

/-- Observable steps of `resetSessionInfo`, in program order: signal the
outgoing session's completion, close (and release) its owned proxy
tunnel, assign the new record to the active slot. -/
inductive Action
  | signalCompletion (sessionId : String)
  | closeProxy (sessionId : String)
  | assignActive (sessionId : String)
deriving DecidableEq, Repr

/-- Result of `resetSessionInfo`: the outgoing session object after the
in-place mutations it suffers (`complete()` fired, `proxyServer`
released), the new active session, and the ordered step trace. -/
structure ResetResult where
  outgoing : Session
  fresh : Session
  trace : List Action
deriving Repr

/-- The `resetSessionInfo(overrides)` method (lines 257-277): signal completion on
the outgoing session, `await proxyServer?.close(true)` and release the
handle, then build the new record by the ordered spread
`\x7b id: uuidv4(), ...defaultSession, ...overrides, ...sessionStats,
userAgent: getUserAgent() ?? "", createdAt: now, ... \x7d` — a later key
wins, so an override replaces a default (even with an explicitly
`undefined` value) and the zeroed `sessionStats` layer replaces any
counter override; `userAgent` and `createdAt` are listed after every
spread. -/
def resetSessionInfo (env : Env) (now : Nat) (old : Session)
    (o : ResetOverrides) (genId : String) : ResetResult :=
  let outgoing : Session := { old with completed := true, proxyServer := none }
  let fresh : Session :=
    { id := o.id.getD genId
      status := o.status.getD defaultSession.status
      websocketUrl := defaultSession.websocketUrl
      debugUrl := defaultSession.debugUrl
      debuggerUrl := defaultSession.debuggerUrl
      sessionViewerUrl := defaultSession.sessionViewerUrl
      dimensions := o.dimensions.getD defaultSession.dimensions
      proxy := o.proxy.getD defaultSession.proxy
      solveCaptcha := o.solveCaptcha.getD defaultSession.solveCaptcha
      manualSolveCaptcha := defaultSession.manualSolveCaptcha
      isSelenium := o.isSelenium.getD defaultSession.isSelenium
      duration := 0
      eventCount := 0
      timeout := 0
      creditsUsed := 0
      proxyTxBytes := 0
      proxyRxBytes := 0
      userAgent := some (env.cdpUserAgent.getD "")
      createdAt := now
      completed := false
      proxyServer := none }
  { outgoing := outgoing
    fresh := fresh
    trace := [Action.signalCompletion old.id] ++
      (match old.proxyServer with
       | some _ => [Action.closeProxy old.id]
       | none => []) ++
      [Action.assignActive fresh.id] }

/-- The whole `SessionService` state: the active slot, the append-only
history, and the captcha registry. -/
structure ServiceState where
  pastSessions : List Session
  activeSession : Session
  captchaTasks : Registry
deriving Repr

/-- The options accepted by `startSession` that affect the session
record (the remaining keys — `sessionContext`, `logSinkUrl`, `blockAds`,
`extensions`, `timezone`, `extra` — only feed the browser launcher
options and the geolocation lookup, neither of which touches the session
record). -/
structure StartOptions where
  sessionId : Option String
  proxyUrl : Option String
  userAgent : Option String
  manualSolveCaptcha : Option Bool
  isSelenium : Option Bool
  dimensions : Option Dimensions
deriving DecidableEq, Repr

/-- JavaScript truthiness of an optional boolean (`undefined` is
falsy). -/
def jsTruthy (a : Option Bool) : Bool :=
  a.getD false

/-- The hard-coded fallback user agent of the Selenium branch
(lines 210-211). -/
def seleniumFallbackUA : String :=
  "Mozilla/5.0 (X11; Linux x86_64) AppleWebKit/537.36 (KHTML, like Gecko) Chrome/128.0.0.0 Safari/537.36"

/-- The `startSession(options)` method (lines 94-228): reset the active slot to a
fresh "live" record carrying the overrides `\x7b id: sessionId ||
uuidv4(), status: "live", proxy: proxyUrl, solveCaptcha: false,
dimensions, isSelenium \x7d` (all six keys present in the literal, so
omitted options overwrite the defaults with `undefined`); when a proxy
URL is given, construct and own a tunnel (the geolocation lookup that
may follow only affects the launcher's timezone and is swallowed on
failure); then dispatch on the selenium flag: the Selenium branch
`Object.assign`s empty `websocketUrl`, `debugUrl`, `sessionViewerUrl`
and a fallback user agent (it does not touch `debuggerUrl`), the default
branch re-assigns the four canonical URLs and the driver's user agent.
Returns the active session. -/
def startSession (env : Env) (now : Nat) (st : ServiceState)
    (opts : StartOptions) (genId : String) : ServiceState × Session :=
  let o : ResetOverrides :=
    { id := some (jsOrStr opts.sessionId genId)
      status := some .live
      proxy := some opts.proxyUrl
      solveCaptcha := some false
      dimensions := some opts.dimensions
      isSelenium := some opts.isSelenium
      duration := none, eventCount := none, timeout := none
      creditsUsed := none, proxyTxBytes := none, proxyRxBytes := none }
  let r := resetSessionInfo env now st.activeSession o genId
  let s1 := r.fresh
  let s2 :=
    match opts.proxyUrl with
    | some purl => { s1 with proxyServer := some { url := purl } }
    | none => s1
  let s3 :=
    if jsTruthy opts.isSelenium then
      { s2 with
        websocketUrl := ""
        debugUrl := ""
        sessionViewerUrl := ""
        userAgent := some (jsOrStr opts.userAgent seleniumFallbackUA) }
    else
      { s2 with
        websocketUrl := getBaseUrl "ws"
        debugUrl := getUrl "v1/sessions/debug" "http"
        debuggerUrl := getUrl "v1/devtools/inspector.html" "http"
        sessionViewerUrl := getBaseUrl "http"
        userAgent := env.cdpUserAgent }
  ({ st with activeSession := s3 }, s3)

/-- The `endSession()` method (lines 230-255): fire the completion primitive, set
status `"released"` and `duration = now - createdAt` on the active
session, tear down the driver and clean up files (external effects),
capture the released record, reset the active slot to a fresh `"idle"`
record (which also releases the proxy tunnel held by the captured
record), push the snapshot onto history, clear the captcha tasks, and
return the snapshot. -/
def endSession (env : Env) (now : Nat) (st : ServiceState)
    (genId : String) : ServiceState × Session :=
  let s1 : Session :=
    { st.activeSession with
      completed := true
      status := .released
      duration := (now : Int) - (st.activeSession.createdAt : Int) }
  let o : ResetOverrides :=
    { id := some genId, status := some .idle
      proxy := none, solveCaptcha := none, dimensions := none
      isSelenium := none, duration := none, eventCount := none
      timeout := none, creditsUsed := none, proxyTxBytes := none
      proxyRxBytes := none }
  let r := resetSessionInfo env now s1 o genId
  let released := r.outgoing
  ({ pastSessions := st.pastSessions ++ [released]
     activeSession := r.fresh
     captchaTasks := (clearCaptchaTasks st.captchaTasks).1 }, released)

/-- A sequence of `startSession` calls folded over the service state:
each element carries the call's clock value, options and generated id. -/
def iterStartSessions (env : Env) (st : ServiceState) :
    List (Nat × StartOptions × String) → ServiceState
  | [] => st
  | (now, opts, genId) :: rest =>
      iterStartSessions env (startSession env now st opts genId).1 rest

/-! ## Realtime event relay (the browser-websocket plugin) -/

namespace EmitEvent

/-- Modelled from the spec: `EmitEvent.Log` of types/enums.ts (not among
the sources given); the logs relay's driver topic, whose name the close
handler spells literally as `` `log` ``. -/
def Log : String := "log"

/-- Modelled from the spec: `EmitEvent.Recording` of types/enums.ts (not
among the sources given); the recording relay's driver topic. -/
def Recording : String := "recording"

end EmitEvent

/-- Lifecycle events the websocket library delivers to one accepted
connection.  The library emits `closeEv` exactly once per connection,
after any `errorEv`. -/
inductive ConnEvent
  | errorEv
  | closeEv
  | messageEv (msg : String)
deriving DecidableEq, Repr

/-- Actions a relay handler performs: subscribing or unsubscribing its
per-connection listener on a driver topic, and logging. -/
inductive WsAction
  | subscribe (topic : String)
  | unsubscribe (topic : String)
  | logError
  | logInfo
deriving DecidableEq, Repr

/-- The `ws.on(...)` reactions of `handleLogsWebSocket` (plugin lines
375-392): on `error` only log; on `close` log and
`removeListener('log', messageHandler)`. -/
def logsOnEvent : ConnEvent → List WsAction
  | .errorEv => [.logError]
  | .closeEv => [.logInfo, .unsubscribe "log"]
  | .messageEv _ => []

/-- The `ws.on(...)` reactions of the pageId relay (plugin lines
419-436): on `error` only log; on `close` log and
`removeListener('pageId', messageHandler)`. -/
def pageIdOnEvent : ConnEvent → List WsAction
  | .errorEv => [.logError]
  | .closeEv => [.logInfo, .unsubscribe "pageId"]
  | .messageEv _ => []

/-- The `ws.on(...)` reactions of the recording relay (plugin lines
442-462): inbound client messages are accepted but intentionally
unhandled; on `error` only log; on `close` log and
`removeListener(EmitEvent.Recording, messageHandler)`. -/
def recordingOnEvent : ConnEvent → List WsAction
  | .errorEv => [.logError]
  | .closeEv => [.logInfo, .unsubscribe EmitEvent.Recording]
  | .messageEv _ => []

/-- Actions produced by a connection's registered reactions over its
lifecycle events, in order. -/
def connActions (onEvent : ConnEvent → List WsAction) :
    List ConnEvent → List WsAction
  | [] => []
  | e :: es => onEvent e ++ connActions onEvent es

/-- The `handleLogsWebSocket` handler over a whole connection: subscribe one
listener on `EmitEvent.Log` (`cdpService.on`), then react to lifecycle
events. -/
def handleLogsWebSocket (evs : List ConnEvent) : List WsAction :=
  WsAction.subscribe EmitEvent.Log :: connActions logsOnEvent evs

/-- The pageId relay over a whole connection: subscribe one listener on
`` `pageId` ``, then react to lifecycle events. -/
def handlePageIdWebSocket (evs : List ConnEvent) : List WsAction :=
  WsAction.subscribe "pageId" :: connActions pageIdOnEvent evs

/-- The recording relay over a whole connection: subscribe one listener
on `EmitEvent.Recording`, then react to lifecycle events. -/
def handleRecordingWebSocket (evs : List ConnEvent) : List WsAction :=
  WsAction.subscribe EmitEvent.Recording :: connActions recordingOnEvent evs

/-! ## Helper lemmas on the registry map -/

theorem mapGet_nil (k : String) : mapGet [] k = none := rfl

theorem mapGet_cons (p : String × CaptchaTaskState) (rest : Registry) (k : String) :
    mapGet (p :: rest) k = if p.1 = k then some p.2 else mapGet rest k := by
  unfold mapGet
  by_cases hp : p.1 = k
  · simp [List.find?_cons_of_pos, hp]
  · simp [List.find?_cons_of_neg, hp]

theorem mapGet_mapSet_self (m : Registry) (k : String) (v : CaptchaTaskState) :
    mapGet (mapSet m k v) k = some v := by
  unfold mapSet
  split
  case isTrue hany =>
    induction m with
    | nil => simp at hany
    | cons p rest ih =>
      by_cases hp : p.1 = k
      · simp [hp, mapGet_cons]
      · simp only [List.any_cons, Bool.or_eq_true, decide_eq_true_eq] at hany
        rcases hany with h1 | h2
        · exact absurd h1 hp
        · simpa [hp, mapGet_cons] using ih (by simpa using h2)
  case isFalse hany =>
    induction m with
    | nil => simp [mapGet_cons]
    | cons p rest ih =>
      simp only [List.any_cons, Bool.or_eq_true, decide_eq_true_eq, not_or] at hany
      simpa [mapGet_cons, hany.1] using ih (by simp [hany.2])

/-! ## C1: at-most-once settlement -/

/-- C1: `updateCaptchaTask` is a no-op after first settlement — when the
task is unknown or its status is not `"pending"`, the call leaves the
registry unchanged (status, result, error and timing fields of every
entry included), settles no rendezvous, throws nothing, and logs exactly
one warning. -/
theorem updateCaptchaTask_noop_after_settlement (m : Registry)
    (taskId : String) (data : CaptchaData) (finalStatus : FinalStatus)
    (h : mapGet m taskId = none ∨
      ∃ t, mapGet m taskId = some t ∧ t.status ≠ TaskStatus.pending) :
    (updateCaptchaTask m taskId data finalStatus).tasks = m ∧
    (updateCaptchaTask m taskId data finalStatus).settles = [] ∧
    (updateCaptchaTask m taskId data finalStatus).thrown = none ∧
    (updateCaptchaTask m taskId data finalStatus).warnings.length = 1 := by
  unfold updateCaptchaTask
  rcases h with h | ⟨t, ht, hs⟩
  · simp [h]
  · simp [ht, hs]

/-- A concrete already-settled task, to exercise the settled branch. -/
def settledTaskEx : CaptchaTaskState :=
  { taskId := "t1", pageId := "p1", status := TaskStatus.success,
    startTime := none, endTime := none, timeTaken := none,
    result := none, error := none }

/-- An empty `data` argument (`\x7b\x7d`-shaped: no result, no error). -/
def emptyDataEx : CaptchaData := { result := none, error := none }

/-- Witness for C1 at a concrete already-settled task. -/
theorem updateCaptchaTask_noop_after_settlement_witness :
    (mapGet [("t1", settledTaskEx)] "t1" = none ∨
      ∃ t, mapGet [("t1", settledTaskEx)] "t1" = some t ∧
        t.status ≠ TaskStatus.pending) ∧
    ((updateCaptchaTask [("t1", settledTaskEx)] "t1" emptyDataEx
        FinalStatus.failed).tasks = [("t1", settledTaskEx)] ∧
     (updateCaptchaTask [("t1", settledTaskEx)] "t1" emptyDataEx
        FinalStatus.failed).settles = [] ∧
     (updateCaptchaTask [("t1", settledTaskEx)] "t1" emptyDataEx
        FinalStatus.failed).thrown = none ∧
     (updateCaptchaTask [("t1", settledTaskEx)] "t1" emptyDataEx
        FinalStatus.failed).warnings.length = 1) :=
  ⟨Or.inr ⟨settledTaskEx, by decide, by decide⟩,
    updateCaptchaTask_noop_after_settlement _ _ _ _
      (Or.inr ⟨settledTaskEx, by decide, by decide⟩)⟩

/-! ## C2: settlement of a pending task -/

/-- A concrete pending task. -/
def pendingTaskEx : CaptchaTaskState :=
  { taskId := "t1", pageId := "p1", status := TaskStatus.pending,
    startTime := none, endTime := none, timeTaken := none,
    result := none, error := none }

/-- A solver payload whose nested success flag is `false`. -/
def unsolvedResultEx : SolverResult :=
  { success := false, started_at := some 1, ended_at := some 5, time_taken := some 4 }

/-- C2 counterexample: a pending task updated with `finalStatus
"success"` but a solver payload whose nested success flag is `false` —
the recorded status becomes `"failed"`, yet the rendezvous is RESOLVED
with the result rather than rejected, because the code branches on the
reported `finalStatus`, not on the recorded outcome.  This falsifies the
claim's "the task's rendezvous is ... rejected ... when the recorded
outcome is not a success". -/
theorem updateCaptchaTask_resolves_despite_failed_status :
    ((mapGet (updateCaptchaTask [("t1", pendingTaskEx)] "t1"
        { result := some unsolvedResultEx, error := none }
        FinalStatus.success).tasks "t1").map CaptchaTaskState.status =
      some TaskStatus.failed) ∧
    (updateCaptchaTask [("t1", pendingTaskEx)] "t1"
        { result := some unsolvedResultEx, error := none }
        FinalStatus.success).settles =
      [SettleEvent.resolved "t1" (some unsolvedResultEx)] := by
  decide

/-- C2 (amended): for every pending task and every `data` carrying a
result payload (the shape the success-reporting path always passes),
`finalStatus "success"` records `"success"` exactly when the nested
solver-result success flag is true and `"failed"` otherwise, any other
`finalStatus` is recorded as given, the timing/result/error fields are
populated from the reported data — and the rendezvous is resolved with
the result exactly when the reported `finalStatus` is `"success"` (even
when the recorded status is `"failed"`), otherwise rejected with a
`\x7bstatus, message\x7d` value. -/
theorem updateCaptchaTask_pending_settles (m : Registry) (taskId : String)
    (t : CaptchaTaskState) (r : SolverResult) (data : CaptchaData)
    (fs : FinalStatus) (ht : mapGet m taskId = some t)
    (hp : t.status = TaskStatus.pending) (hr : data.result = some r) :
    ((mapGet (updateCaptchaTask m taskId data fs).tasks taskId).map
        CaptchaTaskState.status =
      some (if fs = FinalStatus.success then
        (if r.success then TaskStatus.success else TaskStatus.failed)
      else fs.toTaskStatus)) ∧
    ((mapGet (updateCaptchaTask m taskId data fs).tasks taskId).map
        CaptchaTaskState.startTime = some r.started_at) ∧
    ((mapGet (updateCaptchaTask m taskId data fs).tasks taskId).map
        CaptchaTaskState.endTime = some r.ended_at) ∧
    ((mapGet (updateCaptchaTask m taskId data fs).tasks taskId).map
        CaptchaTaskState.timeTaken = some r.time_taken) ∧
    ((mapGet (updateCaptchaTask m taskId data fs).tasks taskId).map
        CaptchaTaskState.result = some (some r)) ∧
    ((mapGet (updateCaptchaTask m taskId data fs).tasks taskId).map
        CaptchaTaskState.error = some data.error) ∧
    ((updateCaptchaTask m taskId data fs).settles =
      if fs = FinalStatus.success then [SettleEvent.resolved taskId (some r)]
      else [SettleEvent.rejected taskId fs
        (jsOrStr data.error ("Task " ++ fs.show))]) ∧
    (updateCaptchaTask m taskId data fs).thrown = none := by
  unfold updateCaptchaTask
  rw [ht]
  cases fs <;>
    simp [hp, hr, mapGet_mapSet_self]

/-- Witness for C2 (amended) at a concrete pending task, solver payload
with a true success flag, and `finalStatus "success"`. -/
theorem updateCaptchaTask_pending_settles_witness :
    (mapGet [("t1", pendingTaskEx)] "t1" = some pendingTaskEx ∧
     pendingTaskEx.status = TaskStatus.pending ∧
     (CaptchaData.mk (some unsolvedResultEx) none).result = some unsolvedResultEx) ∧
    (((mapGet (updateCaptchaTask [("t1", pendingTaskEx)] "t1"
        (CaptchaData.mk (some unsolvedResultEx) none)
        FinalStatus.success).tasks "t1").map CaptchaTaskState.status =
      some (if FinalStatus.success = FinalStatus.success then
        (if unsolvedResultEx.success then TaskStatus.success else TaskStatus.failed)
      else FinalStatus.success.toTaskStatus)) ∧
    ((mapGet (updateCaptchaTask [("t1", pendingTaskEx)] "t1"
        (CaptchaData.mk (some unsolvedResultEx) none)
        FinalStatus.success).tasks "t1").map
        CaptchaTaskState.startTime = some unsolvedResultEx.started_at) ∧
    ((mapGet (updateCaptchaTask [("t1", pendingTaskEx)] "t1"
        (CaptchaData.mk (some unsolvedResultEx) none)
        FinalStatus.success).tasks "t1").map
        CaptchaTaskState.endTime = some unsolvedResultEx.ended_at) ∧
    ((mapGet (updateCaptchaTask [("t1", pendingTaskEx)] "t1"
        (CaptchaData.mk (some unsolvedResultEx) none)
        FinalStatus.success).tasks "t1").map
        CaptchaTaskState.timeTaken = some unsolvedResultEx.time_taken) ∧
    ((mapGet (updateCaptchaTask [("t1", pendingTaskEx)] "t1"
        (CaptchaData.mk (some unsolvedResultEx) none)
        FinalStatus.success).tasks "t1").map
        CaptchaTaskState.result = some (some unsolvedResultEx)) ∧
    ((mapGet (updateCaptchaTask [("t1", pendingTaskEx)] "t1"
        (CaptchaData.mk (some unsolvedResultEx) none)
        FinalStatus.success).tasks "t1").map
        CaptchaTaskState.error =
      some (CaptchaData.mk (some unsolvedResultEx) none).error) ∧
    ((updateCaptchaTask [("t1", pendingTaskEx)] "t1"
        (CaptchaData.mk (some unsolvedResultEx) none)
        FinalStatus.success).settles =
      if FinalStatus.success = FinalStatus.success then
        [SettleEvent.resolved "t1" (some unsolvedResultEx)]
      else [SettleEvent.rejected "t1" FinalStatus.success
        (jsOrStr (CaptchaData.mk (some unsolvedResultEx) none).error
          ("Task " ++ FinalStatus.success.show))]) ∧
    (updateCaptchaTask [("t1", pendingTaskEx)] "t1"
        (CaptchaData.mk (some unsolvedResultEx) none)
        FinalStatus.success).thrown = none) :=
  ⟨⟨by decide, by decide, by decide⟩,
    updateCaptchaTask_pending_settles _ _ pendingTaskEx unsolvedResultEx _ _
      (by decide) (by decide) (by decide)⟩

/-! ## C3: the failed/timeout reporting path -/

/-- The `data` value the result-reporting path passes on error
(sessions.controller.ts line 371): an error message, no result
payload. -/
def errorOnlyDataEx : CaptchaData :=
  { result := none,
    error := some "Timeout waiting for EX_SCS_TRIGGER_MANUAL_SOLVER_RESPONSE" }

/-- C3 (code bug exhibited): on the reporting path's error shape — an
error message with no result payload — `updateCaptchaTask` with
`finalStatus "timeout"` records the status as given but then throws a
`TypeError` reading `data.result.started_at`, so it does not populate
the timing/result/error fields and settles no rendezvous: the caller
blocked on the task's promise is never unblocked. -/
theorem updateCaptchaTask_throws_on_error_path :
    ((updateCaptchaTask [("t7", pendingTaskEx)] "t7" errorOnlyDataEx
        FinalStatus.timeout).thrown =
      some (JsError.typeError
        "Cannot read properties of undefined (reading 'started_at')")) ∧
    (updateCaptchaTask [("t7", pendingTaskEx)] "t7" errorOnlyDataEx
        FinalStatus.timeout).settles = [] ∧
    ((mapGet (updateCaptchaTask [("t7", pendingTaskEx)] "t7" errorOnlyDataEx
        FinalStatus.timeout).tasks "t7").map CaptchaTaskState.status =
      some TaskStatus.timeout) ∧
    ((mapGet (updateCaptchaTask [("t7", pendingTaskEx)] "t7" errorOnlyDataEx
        FinalStatus.timeout).tasks "t7").map CaptchaTaskState.error =
      some none) := by
  decide

/-! ## C4: clearing the registry -/

/-- The taskId a settlement event belongs to. -/
def SettleEvent.taskIdOf : SettleEvent → String
  | .resolved tid _ => tid
  | .rejected tid _ _ => tid

/-- Spec-side description of the settlements `clearCaptchaTasks`
performs: one standard session-ended rejection per still-pending task,
in registry order. -/
def pendingRejections (m : Registry) : List SettleEvent :=
  (List.filter (fun p => p.2.status = TaskStatus.pending) m).map
    (fun p => SettleEvent.rejected p.2.taskId .failed sessionEndedMsg)

theorem clearLoop_eq_pendingRejections (m : Registry) :
    clearLoop m = pendingRejections m := by
  induction m with
  | nil => rfl
  | cons p rest ih =>
    obtain ⟨k, t⟩ := p
    by_cases hp : t.status = TaskStatus.pending <;>
      simp [clearLoop, pendingRejections, hp, ih, List.filter_cons]

theorem mem_clearLoop (m : Registry) (e : SettleEvent) :
    e ∈ clearLoop m ↔ ∃ p ∈ m, p.2.status = TaskStatus.pending ∧
      e = SettleEvent.rejected p.2.taskId .failed sessionEndedMsg := by
  induction m with
  | nil => simp [clearLoop]
  | cons p rest ih =>
    obtain ⟨k, t⟩ := p
    by_cases hp : t.status = TaskStatus.pending <;>
      simp [clearLoop, hp, ih]

/-- C4: `clearCaptchaTasks` rejects the rendezvous of each pending task
with status `"failed"` and the standard session-ended message (one
rejection per pending task, and nothing but such rejections), settles no
already-settled task's rendezvous, and leaves the registry empty.  The
hypotheses state the `Map` representation invariants: keys are unique
and each task is stored under its own id. -/
theorem clearCaptchaTasks_rejects_pending_only (m : Registry)
    (hkeys : (m.map Prod.fst).Nodup)
    (hids : ∀ p ∈ m, p.2.taskId = p.1) :
    ((clearCaptchaTasks m).1 = [] ∧
     (clearCaptchaTasks m).2 = pendingRejections m ∧
     (clearCaptchaTasks m).2.length =
       (List.filter (fun p => p.2.status = TaskStatus.pending) m).length ∧
     (∀ p ∈ m, p.2.status ≠ TaskStatus.pending →
       ∀ e ∈ (clearCaptchaTasks m).2, e.taskIdOf ≠ p.2.taskId)) := by
  refine ⟨rfl, clearLoop_eq_pendingRejections m, ?_, ?_⟩
  · simp [clearCaptchaTasks, clearLoop_eq_pendingRejections, pendingRejections]
  · intro p hp hstat e he
    rw [clearCaptchaTasks] at he
    rw [mem_clearLoop] at he
    obtain ⟨q, hq, hqpend, rfl⟩ := he
    have hne : q.1 ≠ p.1 := by
      intro hkey
      have hqp : q = p := List.inj_on_of_nodup_map hkeys hq hp hkey
      exact hstat (hqp ▸ hqpend)
    simp [SettleEvent.taskIdOf, hids q hq, hids p hp]
    exact hne

/-- A concrete registry with one pending and one settled task. -/
def mixedRegistryEx : Registry :=
  [("a",
    { taskId := "a", pageId := "p1", status := TaskStatus.pending,
      startTime := none, endTime := none, timeTaken := none,
      result := none, error := none }),
   ("b",
    { taskId := "b", pageId := "p1", status := TaskStatus.success,
      startTime := none, endTime := none, timeTaken := none,
      result := none, error := none })]

/-- Witness for C4 at a concrete registry with one pending and one
settled task. -/
theorem clearCaptchaTasks_rejects_pending_only_witness :
    ((mixedRegistryEx.map Prod.fst).Nodup ∧
     (∀ p ∈ mixedRegistryEx, p.2.taskId = p.1)) ∧
    ((clearCaptchaTasks mixedRegistryEx).1 = [] ∧
     (clearCaptchaTasks mixedRegistryEx).2 = pendingRejections mixedRegistryEx ∧
     (clearCaptchaTasks mixedRegistryEx).2.length =
       (List.filter (fun p => p.2.status = TaskStatus.pending)
         mixedRegistryEx).length ∧
     (∀ p ∈ mixedRegistryEx, p.2.status ≠ TaskStatus.pending →
       ∀ e ∈ (clearCaptchaTasks mixedRegistryEx).2,
         e.taskIdOf ≠ p.2.taskId)) :=
  ⟨⟨by decide, by decide⟩,
    clearCaptchaTasks_rejects_pending_only mixedRegistryEx
      (by decide) (by decide)⟩

/-! ## C5: start/end lifecycle statuses -/

/-- C5: after `startSession(options)` the active session's status is
`"live"` (and the returned record is that session); a subsequent
`endSession()` returns a snapshot with status `"released"` whose
duration is the end time minus the snapshot's `createdAt`, and leaves a
fresh active session with status `"idle"`. -/
theorem startSession_live_endSession_released (env : Env) (now now2 : Nat)
    (st : ServiceState) (opts : StartOptions) (gid gid2 : String) :
    (startSession env now st opts gid).1.activeSession.status =
      SessionStatus.live ∧
    (startSession env now st opts gid).2.status = SessionStatus.live ∧
    (endSession env now2 (startSession env now st opts gid).1 gid2).2.status =
      SessionStatus.released ∧
    (endSession env now2 (startSession env now st opts gid).1 gid2).2.duration =
      (now2 : Int) -
        ((endSession env now2 (startSession env now st opts gid).1
          gid2).2.createdAt : Int) ∧
    (endSession env now2 (startSession env now st opts gid).1
      gid2).1.activeSession.status = SessionStatus.idle := by
  unfold startSession endSession resetSessionInfo
  cases opts.proxyUrl <;> cases hb : jsTruthy opts.isSelenium <;> simp [hb]

/-! ## C6: history grows only on explicit end -/

theorem startSession_preserves_pastSessions (env : Env) (now : Nat)
    (st : ServiceState) (opts : StartOptions) (gid : String) :
    (startSession env now st opts gid).1.pastSessions = st.pastSessions :=
  rfl

/-- C6: for every sequence of consecutive `startSession` calls with no
intervening `endSession`, the `pastSessions` history is unchanged, and
each `endSession` appends exactly one snapshot — the released session it
returns — to history. -/
theorem history_grows_only_on_end (env : Env) (st : ServiceState)
    (inputs : List (Nat × StartOptions × String)) (now : Nat) (gid : String) :
    (iterStartSessions env st inputs).pastSessions = st.pastSessions ∧
    (endSession env now st gid).1.pastSessions =
      st.pastSessions ++ [(endSession env now st gid).2] := by
  constructor
  · induction inputs generalizing st with
    | nil => rfl
    | cons i rest ih =>
      obtain ⟨n, opts, g⟩ := i
      calc (iterStartSessions env st ((n, opts, g) :: rest)).pastSessions
          = (startSession env n st opts g).1.pastSessions :=
            ih (startSession env n st opts g).1
        _ = st.pastSessions := startSession_preserves_pastSessions env n st opts g
  · rfl

/-! ## C7: endpoint URLs by driver -/

/-- The `SessionService` constructor's initial session (lines 82-91). -/
def initialSession (env : Env) (now : Nat) (genId : String) : Session :=
  { id := genId
    createdAt := now
    status := defaultSession.status
    websocketUrl := defaultSession.websocketUrl
    debugUrl := defaultSession.debugUrl
    debuggerUrl := defaultSession.debuggerUrl
    sessionViewerUrl := defaultSession.sessionViewerUrl
    dimensions := defaultSession.dimensions
    proxy := defaultSession.proxy
    solveCaptcha := defaultSession.solveCaptcha
    manualSolveCaptcha := defaultSession.manualSolveCaptcha
    isSelenium := defaultSession.isSelenium
    duration := 0
    eventCount := 0
    timeout := 0
    creditsUsed := 0
    proxyTxBytes := 0
    proxyRxBytes := 0
    userAgent := some (env.cdpUserAgent.getD "")
    completed := true
    proxyServer := none }

/-- The `SessionService` state right after construction. -/
def initialState (env : Env) (now : Nat) (genId : String) : ServiceState :=
  { pastSessions := []
    activeSession := initialSession env now genId
    captchaTasks := [] }

/-- A concrete environment. -/
def envEx : Env := { cdpUserAgent := some "HeadlessChrome/128.0.0.0" }

/-- Concrete options with the selenium flag set and everything else
omitted. -/
def seleniumOptsEx : StartOptions :=
  { sessionId := none, proxyUrl := none, userAgent := none,
    manualSolveCaptcha := none, isSelenium := some true, dimensions := none }

/-- C7 counterexample: with the selenium flag set, the returned
session's `debuggerUrl` is NOT the empty string — the Selenium branch's
`Object.assign` (lines 205-212) overwrites `websocketUrl`, `debugUrl`
and `sessionViewerUrl` but omits `debuggerUrl`, which keeps the
canonical default. -/
theorem startSession_selenium_debuggerUrl_not_empty :
    (startSession envEx 0 (initialState envEx 0 "s0") seleniumOptsEx
      "s1").2.debuggerUrl ≠ "" ∧
    (startSession envEx 0 (initialState envEx 0 "s0") seleniumOptsEx
      "s1").2.debuggerUrl = getUrl "v1/devtools/inspector.html" "http" := by
  decide

/-- C7 (amended): with the selenium flag set, the returned session's
`websocketUrl`, `debugUrl` and `sessionViewerUrl` are empty strings
while `debuggerUrl` keeps the canonical derived default; with the flag
unset (or absent) all four endpoint URLs are the canonical derived
URLs. -/
theorem startSession_endpoint_urls (env : Env) (now : Nat)
    (st : ServiceState) (opts : StartOptions) (gid : String) :
    (jsTruthy opts.isSelenium = true →
      (startSession env now st opts gid).2.websocketUrl = "" ∧
      (startSession env now st opts gid).2.debugUrl = "" ∧
      (startSession env now st opts gid).2.sessionViewerUrl = "" ∧
      (startSession env now st opts gid).2.debuggerUrl =
        defaultSession.debuggerUrl) ∧
    (jsTruthy opts.isSelenium = false →
      (startSession env now st opts gid).2.websocketUrl = getBaseUrl "ws" ∧
      (startSession env now st opts gid).2.debugUrl =
        getUrl "v1/sessions/debug" "http" ∧
      (startSession env now st opts gid).2.debuggerUrl =
        getUrl "v1/devtools/inspector.html" "http" ∧
      (startSession env now st opts gid).2.sessionViewerUrl =
        getBaseUrl "http") := by
  constructor <;> intro hb <;>
    unfold startSession resetSessionInfo <;>
    cases opts.proxyUrl <;> simp [hb, defaultSession]

/-- Witness for C7 (amended) at concrete selenium and non-selenium
calls. -/
theorem startSession_endpoint_urls_witness :
    (jsTruthy seleniumOptsEx.isSelenium = true ∧
      ((startSession envEx 0 (initialState envEx 0 "s0") seleniumOptsEx
        "s1").2.websocketUrl = "" ∧
      (startSession envEx 0 (initialState envEx 0 "s0") seleniumOptsEx
        "s1").2.debugUrl = "" ∧
      (startSession envEx 0 (initialState envEx 0 "s0") seleniumOptsEx
        "s1").2.sessionViewerUrl = "" ∧
      (startSession envEx 0 (initialState envEx 0 "s0") seleniumOptsEx
        "s1").2.debuggerUrl = defaultSession.debuggerUrl)) :=
  ⟨by decide,
    (startSession_endpoint_urls envEx 0 (initialState envEx 0 "s0")
      seleniumOptsEx "s1").1 (by decide)⟩

/-! ## C8: teardown-before-assignment ordering -/

/-- Steps that tear the outgoing session down: signalling its completion
primitive and closing its proxy tunnel. -/
def isTeardown : Action → Bool
  | .signalCompletion _ => true
  | .closeProxy _ => true
  | .assignActive _ => false

/-- The step that makes the new record visible in the active slot. -/
def isAssign : Action → Bool
  | .assignActive _ => true
  | _ => false

/-- Every teardown step occurs strictly before every assignment step:
after any assignment, no teardown step follows. -/
def teardownBeforeAssign : List Action → Bool
  | [] => true
  | a :: rest =>
      (!(isAssign a) || rest.all (fun b => !(isTeardown b))) &&
        teardownBeforeAssign rest

/-- Occurrences of one action in a trace. -/
def countAction (a : Action) (tr : List Action) : Nat :=
  (tr.filter (fun b => b = a)).length

/-- C8: in every execution of `resetSessionInfo`, the outgoing session's
completion primitive is signalled exactly once and its owned proxy
tunnel (when it has one) is closed, both strictly before the new record
is assigned to the active slot; the handle is released (neither the
mutated outgoing record nor the new one holds it), and the record that
becomes visible is the fully-built fresh one. -/
theorem resetSessionInfo_teardown_before_assign (env : Env) (now : Nat)
    (old : Session) (o : ResetOverrides) (genId : String) :
    teardownBeforeAssign (resetSessionInfo env now old o genId).trace = true ∧
    countAction (Action.signalCompletion old.id)
      (resetSessionInfo env now old o genId).trace = 1 ∧
    (old.proxyServer.isSome →
      countAction (Action.closeProxy old.id)
        (resetSessionInfo env now old o genId).trace = 1) ∧
    countAction (Action.assignActive
        (resetSessionInfo env now old o genId).fresh.id)
      (resetSessionInfo env now old o genId).trace = 1 ∧
    (resetSessionInfo env now old o genId).outgoing.proxyServer = none ∧
    (resetSessionInfo env now old o genId).fresh.proxyServer = none := by
  unfold resetSessionInfo
  cases old.proxyServer <;>
    simp [teardownBeforeAssign, isAssign, isTeardown, countAction,
      List.filter, List.all]

/-- Witness for C8 at a concrete outgoing session owning a proxy
tunnel. -/
theorem resetSessionInfo_teardown_before_assign_witness :
    ({ initialSession envEx 0 "s0" with
        proxyServer := some { url := "http://proxy:8080" } } :
      Session).proxyServer.isSome = true ∧
    (teardownBeforeAssign (resetSessionInfo envEx 1
        { initialSession envEx 0 "s0" with
          proxyServer := some { url := "http://proxy:8080" } }
        { id := some "s1", status := some SessionStatus.live, proxy := none,
          solveCaptcha := none, dimensions := none, isSelenium := none,
          duration := none, eventCount := none, timeout := none,
          creditsUsed := none, proxyTxBytes := none, proxyRxBytes := none }
        "g1").trace = true ∧
      countAction (Action.closeProxy "s0")
        (resetSessionInfo envEx 1
          { initialSession envEx 0 "s0" with
            proxyServer := some { url := "http://proxy:8080" } }
          { id := some "s1", status := some SessionStatus.live, proxy := none,
            solveCaptcha := none, dimensions := none, isSelenium := none,
            duration := none, eventCount := none, timeout := none,
            creditsUsed := none, proxyTxBytes := none, proxyRxBytes := none }
          "g1").trace = 1) :=
  ⟨by decide,
    (resetSessionInfo_teardown_before_assign envEx 1
      { initialSession envEx 0 "s0" with
        proxyServer := some { url := "http://proxy:8080" } }
      { id := some "s1", status := some SessionStatus.live, proxy := none,
        solveCaptcha := none, dimensions := none, isSelenium := none,
        duration := none, eventCount := none, timeout := none,
        creditsUsed := none, proxyTxBytes := none, proxyRxBytes := none }
      "g1").1,
    (resetSessionInfo_teardown_before_assign envEx 1
      { initialSession envEx 0 "s0" with
        proxyServer := some { url := "http://proxy:8080" } }
      { id := some "s1", status := some SessionStatus.live, proxy := none,
        solveCaptcha := none, dimensions := none, isSelenium := none,
        duration := none, eventCount := none, timeout := none,
        creditsUsed := none, proxyTxBytes := none, proxyRxBytes := none }
      "g1").2.2.1 (by decide)⟩

/-! ## C9: relay listener discipline -/

/-- Occurrences of one action in a handler's action list. -/
def countWs (a : WsAction) (xs : List WsAction) : Nat :=
  (xs.filter (fun b => b = a)).length

/-- Occurrences of the library's `close` event in a connection's
lifecycle. -/
def countCloses (evs : List ConnEvent) : Nat :=
  (evs.filter (fun e => e = ConnEvent.closeEv)).length

theorem countWs_nil (a : WsAction) : countWs a [] = 0 := rfl

theorem countWs_append (a : WsAction) (xs ys : List WsAction) :
    countWs a (xs ++ ys) = countWs a xs + countWs a ys := by
  simp [countWs, List.filter_append]

theorem countWs_cons (a x : WsAction) (xs : List WsAction) :
    countWs a (x :: xs) = (if x = a then 1 else 0) + countWs a xs := by
  by_cases h : x = a <;> simp [countWs, List.filter_cons, h, Nat.add_comm]

theorem countCloses_cons (e : ConnEvent) (rest : List ConnEvent) :
    countCloses (e :: rest) =
      (if e = ConnEvent.closeEv then 1 else 0) + countCloses rest := by
  by_cases he : e = ConnEvent.closeEv <;>
    simp [countCloses, List.filter_cons, he, Nat.add_comm]

theorem countWs_connActions_logs (evs : List ConnEvent) :
    countWs (.unsubscribe "log") (connActions logsOnEvent evs) =
      countCloses evs ∧
    countWs (.subscribe "log") (connActions logsOnEvent evs) = 0 := by
  induction evs with
  | nil => exact ⟨rfl, rfl⟩
  | cons e rest ih =>
    cases e <;>
      simp [connActions, logsOnEvent, countWs_append, countWs_cons,
        countWs_nil, countCloses_cons, ih.1, ih.2]

theorem countWs_connActions_pageId (evs : List ConnEvent) :
    countWs (.unsubscribe "pageId") (connActions pageIdOnEvent evs) =
      countCloses evs ∧
    countWs (.subscribe "pageId") (connActions pageIdOnEvent evs) = 0 := by
  induction evs with
  | nil => exact ⟨rfl, rfl⟩
  | cons e rest ih =>
    cases e <;>
      simp [connActions, pageIdOnEvent, countWs_append, countWs_cons,
        countWs_nil, countCloses_cons, ih.1, ih.2]

theorem countWs_connActions_recording (evs : List ConnEvent) :
    countWs (.unsubscribe "recording") (connActions recordingOnEvent evs) =
      countCloses evs ∧
    countWs (.subscribe "recording") (connActions recordingOnEvent evs) = 0 := by
  induction evs with
  | nil => exact ⟨rfl, rfl⟩
  | cons e rest ih =>
    cases e <;>
      simp [connActions, recordingOnEvent, EmitEvent.Recording, countWs_append,
        countWs_cons, countWs_nil, countCloses_cons, ih.1, ih.2]

/-- C9: for each event-relay websocket path (logs, pageId, recording),
every accepted connection establishes exactly one listener subscription
on the driver's topic, and exactly one unsubscription of that same topic
fires over the connection's lifecycle — never zero and never more than
one — for every lifecycle with exactly one `close` event, whether or not
`error` events occur (the websocket library emits `close` exactly once
per connection, after any `error`). -/
theorem relay_one_subscribe_one_unsubscribe (evs : List ConnEvent)
    (h : countCloses evs = 1) :
    countWs (.subscribe "log") (handleLogsWebSocket evs) = 1 ∧
    countWs (.unsubscribe "log") (handleLogsWebSocket evs) = 1 ∧
    countWs (.subscribe "pageId") (handlePageIdWebSocket evs) = 1 ∧
    countWs (.unsubscribe "pageId") (handlePageIdWebSocket evs) = 1 ∧
    countWs (.subscribe "recording") (handleRecordingWebSocket evs) = 1 ∧
    countWs (.unsubscribe "recording") (handleRecordingWebSocket evs) = 1 := by
  obtain ⟨hl1, hl2⟩ := countWs_connActions_logs evs
  obtain ⟨hp1, hp2⟩ := countWs_connActions_pageId evs
  obtain ⟨hr1, hr2⟩ := countWs_connActions_recording evs
  unfold handleLogsWebSocket handlePageIdWebSocket handleRecordingWebSocket
  simp [EmitEvent.Log, EmitEvent.Recording, countWs_cons, hl1, hl2, hp1, hp2,
    hr1, hr2, h]

/-- Witness for C9 at a concrete connection lifecycle that errors and
then closes. -/
theorem relay_one_subscribe_one_unsubscribe_witness :
    countCloses [ConnEvent.errorEv, ConnEvent.closeEv] = 1 ∧
    (countWs (.subscribe "log")
        (handleLogsWebSocket [ConnEvent.errorEv, ConnEvent.closeEv]) = 1 ∧
      countWs (.unsubscribe "log")
        (handleLogsWebSocket [ConnEvent.errorEv, ConnEvent.closeEv]) = 1 ∧
      countWs (.subscribe "pageId")
        (handlePageIdWebSocket [ConnEvent.errorEv, ConnEvent.closeEv]) = 1 ∧
      countWs (.unsubscribe "pageId")
        (handlePageIdWebSocket [ConnEvent.errorEv, ConnEvent.closeEv]) = 1 ∧
      countWs (.subscribe "recording")
        (handleRecordingWebSocket [ConnEvent.errorEv, ConnEvent.closeEv]) = 1 ∧
      countWs (.unsubscribe "recording")
        (handleRecordingWebSocket [ConnEvent.errorEv, ConnEvent.closeEv]) = 1) :=
  ⟨by decide,
    relay_one_subscribe_one_unsubscribe [ConnEvent.errorEv, ConnEvent.closeEv]
      (by decide)⟩

/-! ## C10: explicit-undefined overrides and zeroed counters -/

/-- C10: a `startSession` call that omits `dimensions` and `proxyUrl`
yields an active session whose `dimensions` field is `undefined` (not
the 1920×1080 default) and whose `proxy` is `undefined` (not `""`),
because the overrides literal spreads its explicitly-`undefined` keys
over the defaults; while the counter fields are zero after every
`resetSessionInfo`, whatever the overrides say, because the zeroed
`sessionStats` layer is spread after the overrides. -/
theorem overrides_clobber_defaults_but_not_counters (env : Env) (now : Nat)
    (st : ServiceState) (opts : StartOptions) (gid : String)
    (hdim : opts.dimensions = none) (hproxy : opts.proxyUrl = none) :
    ((startSession env now st opts gid).1.activeSession.dimensions = none ∧
     (startSession env now st opts gid).1.activeSession.proxy = none ∧
     (startSession env now st opts gid).1.activeSession.duration = 0 ∧
     (startSession env now st opts gid).1.activeSession.eventCount = 0 ∧
     (startSession env now st opts gid).1.activeSession.timeout = 0 ∧
     (startSession env now st opts gid).1.activeSession.creditsUsed = 0 ∧
     (startSession env now st opts gid).1.activeSession.proxyTxBytes = 0 ∧
     (startSession env now st opts gid).1.activeSession.proxyRxBytes = 0) ∧
    (∀ (old : Session) (o : ResetOverrides) (gid2 : String) (now2 : Nat),
      (resetSessionInfo env now2 old o gid2).fresh.duration = 0 ∧
      (resetSessionInfo env now2 old o gid2).fresh.eventCount = 0 ∧
      (resetSessionInfo env now2 old o gid2).fresh.timeout = 0 ∧
      (resetSessionInfo env now2 old o gid2).fresh.creditsUsed = 0 ∧
      (resetSessionInfo env now2 old o gid2).fresh.proxyTxBytes = 0 ∧
      (resetSessionInfo env now2 old o gid2).fresh.proxyRxBytes = 0) := by
  constructor
  · unfold startSession resetSessionInfo
    cases hb : jsTruthy opts.isSelenium <;> simp [hb, hdim, hproxy]
  · intro old o gid2 now2
    unfold resetSessionInfo
    simp

/-- Witness for C10 at a concrete call omitting `dimensions` and
`proxyUrl`. -/
theorem overrides_clobber_defaults_but_not_counters_witness :
    (seleniumOptsEx.dimensions = none ∧ seleniumOptsEx.proxyUrl = none) ∧
    ((startSession envEx 0 (initialState envEx 0 "s0") seleniumOptsEx
        "s1").1.activeSession.dimensions = none ∧
     (startSession envEx 0 (initialState envEx 0 "s0") seleniumOptsEx
        "s1").1.activeSession.proxy = none) :=
  ⟨⟨by decide, by decide⟩,
    ⟨((overrides_clobber_defaults_but_not_counters envEx 0
        (initialState envEx 0 "s0") seleniumOptsEx "s1"
        (by decide) (by decide)).1).1,
      ((overrides_clobber_defaults_but_not_counters envEx 0
        (initialState envEx 0 "s0") seleniumOptsEx "s1"
        (by decide) (by decide)).1).2.1⟩⟩

end SteelBrowser
